import Mathlib

set_option maxHeartbeats 1000000

/-
A verification development for dissect.volume: shallow embeddings of the
RAID address-translation streams (dissect/volume/raid/stream.py), the MD and
DDF metadata aggregation (dissect/volume/md/md.py, dissect/volume/ddf/ddf.py),
the device-mapper B-tree and thin device (dissect/volume/dm/btree.py,
dissect/volume/dm/thin.py) and partition-scheme identification
(dissect/volume/disk/disk.py), together with theorems settling the
specification claims about them.

Bytes are modelled as natural numbers, byte strings as lists of naturals, and
backing streams as total functions from byte position to byte value.  Python
exceptions are modelled with `Except`; unbounded `while` loops are modelled
with an explicit fuel argument that is always sufficient on the inputs the
theorems speak about.
-/

namespace DissectVolume

/-- A backing disk stream (`PhysicalDisk.fh` plus `PhysicalDisk.offset`):
`offset` is the byte offset of this disk's data section within the stream and
`data` gives the byte stored at every absolute stream position. -/
structure DiskF where
  offset : Nat
  data : Nat → Nat

/-- `fh.seek(pos); fh.read(len)`: the `len` bytes starting at absolute
position `pos`.  Backing streams are total, so reads are never short. -/
def fhRead (d : DiskF) (pos len : Nat) : List Nat :=
  (List.range len).map fun i => d.data (pos + i)

/-- The errors the RAID stream code can raise: `RAIDError`, a `KeyError`
escaping from a `disks[idx]` dictionary lookup, and `NotImplementedError`. -/
inductive RErr where
  | raidError : String → RErr
  | keyError : Nat → RErr
  | notImpl : String → RErr
  deriving DecidableEq, Repr

/-! RAID layout identifiers from `class Layout` in raid/stream.py. -/

def LEFT_ASYMMETRIC : Nat := 0

def RIGHT_ASYMMETRIC : Nat := 1

def LEFT_SYMMETRIC : Nat := 2

def RIGHT_SYMMETRIC : Nat := 3

def PARITY_0 : Nat := 4

def PARITY_N : Nat := 5

def ROTATING_ZERO_RESTART : Nat := 8

def ROTATING_N_RESTART : Nat := 9

def ROTATING_N_CONTINUE : Nat := 10

def LEFT_ASYMMETRIC_6 : Nat := 16

def RIGHT_ASYMMETRIC_6 : Nat := 17

def LEFT_SYMMETRIC_6 : Nat := 18

def RIGHT_SYMMETRIC_6 : Nat := 19

def PARITY_0_6 : Nat := 20

/-- The fields of a `VirtualDisk` that `RAID456Stream` uses: level, layout
(`algorithm`), stripe size in bytes, logical disk count, volume size, and the
physical-disk map `{role: (dd_start, disk)}` as an association list. -/
structure RVirtualDisk where
  level : Int
  layout : Nat
  stripeSize : Nat
  numDisks : Nat
  vsize : Nat
  disks : List (Nat × Nat × DiskF)

/-- `self.max_degraded = 2 if self.level == 6 else 1`. -/
def maxDegraded (vd : RVirtualDisk) : Nat :=
  if vd.level = 6 then 2 else 1

/-- Dictionary lookup `disks[idx]` on the disk map; `none` models the
`KeyError` case of a missing member. -/
def diskLookup (disks : List (Nat × Nat × DiskF)) (idx : Nat) : Option (Nat × DiskF) :=
  match disks with
  | [] => none
  | (k, v) :: rest => if k = idx then some v else diskLookup rest idx

/-- `RAID456Stream.__init__`: the missing-disks check.  The stream is
constructed iff at least `num_disks - max_degraded` members are present. -/
def raid456Init (vd : RVirtualDisk) : Except RErr Unit :=
  if vd.disks.length < vd.numDisks - maxDegraded vd then
    .error (.raidError "Missing disks in RAID set")
  else
    .ok ()

/-- `RAID456Stream._get_stripe_read_info`: translate a logical byte offset to
`(stripe, offset_in_stripe, dd_idx, pd_idx, qd_idx)`.  Faithful to the source
if/elif chain, including: the `ROTATING_*` layouts set `ddf_layout = True`
which ends in `raise NotImplementedError("DDF layout")`, and in the
`RIGHT_ASYMMETRIC_6` branch the source assigns `qd_idx` only inside the
`if dd_idx >= pd_idx` body, so `qd_idx` stays `None` on the other path. -/
def getStripeReadInfo (vd : RVirtualDisk) (offset : Nat) :
    Except RErr (Nat × Nat × Nat × Nat × Option Nat) :=
  let raidDisks := vd.numDisks
  let dataDisks := raidDisks - maxDegraded vd
  let stripeNumber := offset / vd.stripeSize
  let offsetInStripe := offset % vd.stripeSize
  let stripe := stripeNumber / dataDisks
  let dd0 := stripeNumber % dataDisks
  if vd.level = 4 then
    .ok (stripe, offsetInStripe, dd0, dataDisks, none)
  else if vd.level = 5 then
    if vd.layout = LEFT_ASYMMETRIC then
      let pd := dataDisks - stripe % raidDisks
      .ok (stripe, offsetInStripe, if pd ≤ dd0 then dd0 + 1 else dd0, pd, none)
    else if vd.layout = RIGHT_ASYMMETRIC then
      let pd := stripe % raidDisks
      .ok (stripe, offsetInStripe, if pd ≤ dd0 then dd0 + 1 else dd0, pd, none)
    else if vd.layout = LEFT_SYMMETRIC then
      let pd := dataDisks - stripe % raidDisks
      .ok (stripe, offsetInStripe, (pd + 1 + dd0) % raidDisks, pd, none)
    else if vd.layout = RIGHT_SYMMETRIC then
      let pd := stripe % raidDisks
      .ok (stripe, offsetInStripe, (pd + 1 + dd0) % raidDisks, pd, none)
    else if vd.layout = PARITY_0 then
      .ok (stripe, offsetInStripe, dd0 + 1, 0, none)
    else if vd.layout = PARITY_N then
      .ok (stripe, offsetInStripe, dd0, dataDisks, none)
    else
      .error (.raidError "Invalid RAID algorithm")
  else if vd.level = 6 then
    if vd.layout = LEFT_ASYMMETRIC then
      let pd := raidDisks - 1 - stripe % raidDisks
      if pd = raidDisks - 1 then
        .ok (stripe, offsetInStripe, dd0 + 1, pd, some 0)
      else if pd ≤ dd0 then
        .ok (stripe, offsetInStripe, dd0 + 2, pd, some (pd + 1))
      else
        .ok (stripe, offsetInStripe, dd0, pd, some (pd + 1))
    else if vd.layout = RIGHT_ASYMMETRIC then
      let pd := stripe % raidDisks
      if pd = raidDisks - 1 then
        .ok (stripe, offsetInStripe, dd0 + 1, pd, some 0)
      else if pd ≤ dd0 then
        .ok (stripe, offsetInStripe, dd0 + 2, pd, some (pd + 1))
      else
        .ok (stripe, offsetInStripe, dd0, pd, some (pd + 1))
    else if vd.layout = LEFT_SYMMETRIC then
      let pd := raidDisks - 1 - stripe % raidDisks
      .ok (stripe, offsetInStripe, (pd + 2 + dd0) % raidDisks, pd, some ((pd + 1) % raidDisks))
    else if vd.layout = RIGHT_SYMMETRIC then
      let pd := stripe % raidDisks
      .ok (stripe, offsetInStripe, (pd + 2 + dd0) % raidDisks, pd, some ((pd + 1) % raidDisks))
    else if vd.layout = PARITY_0 then
      .ok (stripe, offsetInStripe, dd0 + 2, 0, some 1)
    else if vd.layout = PARITY_N then
      .ok (stripe, offsetInStripe, dd0, dataDisks, some (dataDisks + 1))
    else if vd.layout = ROTATING_ZERO_RESTART then
      .error (.notImpl "DDF layout")
    else if vd.layout = ROTATING_N_RESTART then
      .error (.notImpl "DDF layout")
    else if vd.layout = ROTATING_N_CONTINUE then
      .error (.notImpl "DDF layout")
    else if vd.layout = LEFT_ASYMMETRIC_6 then
      let pd := dataDisks - stripe % (raidDisks - 1)
      .ok (stripe, offsetInStripe, if pd ≤ dd0 then dd0 + 1 else dd0, pd, some (raidDisks - 1))
    else if vd.layout = RIGHT_ASYMMETRIC_6 then
      let pd := stripe % (raidDisks - 1)
      if pd ≤ dd0 then
        .ok (stripe, offsetInStripe, dd0 + 1, pd, some (raidDisks - 1))
      else
        .ok (stripe, offsetInStripe, dd0, pd, none)
    else if vd.layout = LEFT_SYMMETRIC_6 then
      let pd := dataDisks - stripe % (raidDisks - 1)
      .ok (stripe, offsetInStripe, (pd + 1 + dd0) % (raidDisks - 1), pd, some (raidDisks - 1))
    else if vd.layout = RIGHT_SYMMETRIC_6 then
      let pd := stripe % (raidDisks - 1)
      .ok (stripe, offsetInStripe, (pd + 1 + dd0) % (raidDisks - 1), pd, some (raidDisks - 1))
    else if vd.layout = PARITY_0_6 then
      .ok (stripe, offsetInStripe, dd0 + 1, 0, some (raidDisks - 1))
    else
      .error (.raidError "Invalid RAID algorithm")
  else
    .error (.raidError "Invalid RAID level")

/-- The `while length:` loop of `RAID456Stream._read`, with fuel.  Note the
source computes `read_length = min(length, stripe_remaining)` but passes the
unclamped `length` to `dd_dev.fh.read`, while advancing the loop variables by
`read_length`; the embedding reproduces that.  One unit of fuel is consumed
per iteration; every iteration with `stripe_size > 0` produces at least one
byte, so `fuel = length` always suffices there. -/
def raid456ReadGo (vd : RVirtualDisk) : Nat → Nat → Nat → Except RErr (List Nat)
  | _, _, 0 => .ok []
  | 0, _, _ => .error (.raidError "out of fuel")
  | fuel + 1, offset, length =>
    match getStripeReadInfo vd offset with
    | .error e => .error e
    | .ok (stripe, offsetInStripe, ddIdx, _, _) =>
      match diskLookup vd.disks ddIdx with
      | none => .error (.keyError ddIdx)
      | some (ddStart, ddDev) =>
        let offsetInDevice := stripe * vd.stripeSize + offsetInStripe
        let stripeRemaining := vd.stripeSize - offsetInStripe
        let readLength := min length stripeRemaining
        let chunk := fhRead ddDev (ddDev.offset + ddStart + offsetInDevice) length
        match raid456ReadGo vd fuel (offset + readLength) (length - readLength) with
        | .error e => .error e
        | .ok rest => .ok (chunk ++ rest)

/-- `RAID456Stream._read(offset, length)`. -/
def raid456Read (vd : RVirtualDisk) (offset length : Nat) : Except RErr (List Nat) :=
  raid456ReadGo vd length offset length

/-- The fields of a `VirtualDisk` that `RAID10Stream` uses.  The layout word
encodes the geometry: `near_copies = layout & 0xFF`,
`far_copies = (layout >> 8) & 0xFF`, `far_offset = layout & (1 << 16)`
(`setup_geo`); the `far_set_size` computation of `__init__` is not consumed
by `_read` and is not embedded. -/
structure R10VirtualDisk where
  layout : Nat
  stripeSize : Nat
  numDisks : Nat
  vsize : Nat
  devices : List (Nat × Nat × DiskF)

/-- `self.near_copies = layout & 0xFF`. -/
def r10NearCopies (vd : R10VirtualDisk) : Nat := vd.layout &&& 0xFF

/-- `self.far_copies = (layout >> 8) & 0xFF`. -/
def r10FarCopies (vd : R10VirtualDisk) : Nat := (vd.layout >>> 8) &&& 0xFF

/-- `self.far_offset = layout & (1 << 16)`. -/
def r10FarOffset (vd : R10VirtualDisk) : Nat := vd.layout &&& (1 <<< 16)

/-- The `while length:` loop of `RAID10Stream._read`, with fuel.  As in
`RAID456Stream._read`, the source computes `read_length` but passes the
unclamped `length` to `device.fh.read`; the device for a stripe is the single
dictionary lookup `self.devices[dev]` (a missing member is a `KeyError`, no
other copy is attempted). -/
def raid10ReadGo (vd : R10VirtualDisk) : Nat → Nat → Nat → Except RErr (List Nat)
  | _, _, 0 => .ok []
  | 0, _, _ => .error (.raidError "out of fuel")
  | fuel + 1, offset, length =>
    let stripeNumber := offset / vd.stripeSize
    let offsetInStripe := offset % vd.stripeSize
    let stripe0 := stripeNumber * r10NearCopies vd / vd.numDisks
    let dev := stripeNumber * r10NearCopies vd % vd.numDisks
    let stripe := if r10FarOffset vd ≠ 0 then stripe0 * r10FarCopies vd else stripe0
    match diskLookup vd.devices dev with
    | none => .error (.keyError dev)
    | some (deviceStart, device) =>
      let stripeRemaining := vd.stripeSize - offsetInStripe
      let readLength := min length stripeRemaining
      let chunk := fhRead device (device.offset + deviceStart + stripe * vd.stripeSize + offsetInStripe) length
      match raid10ReadGo vd fuel (offset + readLength) (length - readLength) with
      | .error e => .error e
      | .ok rest => .ok (chunk ++ rest)

/-- `RAID10Stream._read(offset, length)`. -/
def raid10Read (vd : R10VirtualDisk) (offset length : Nat) : Except RErr (List Nat) :=
  raid10ReadGo vd length offset length

/-! ## MD metadata aggregation (dissect/volume/md/md.py) -/

/-- `SECTOR_SIZE` from md/c_md.py. -/
def SECTOR_SIZE : Nat := 512

/-- `MD_DISK_ROLE_JOURNAL` (0xFFFD) from md/c_md.py. -/
def MD_DISK_ROLE_JOURNAL : Nat := 0xFFFD

/-- `MD_DISK_ROLE_MAX` (0xFF00) from md/c_md.py. -/
def MD_DISK_ROLE_MAX : Nat := 0xFF00

/-- The fields of a parsed `MDPhysicalDisk` used by `MDVirtualDisk.__init__`:
the freshness counter `events`, level/layout/chunk_size/raid_disks from the
superblock, the recorded `sb.size` (sectors), the device data size
`data_size` (sectors, so `disk.size = data_size * SECTOR_SIZE` bytes), the
assigned `raid_disk` role, and the set name/uuid (abstracted to numbers). -/
structure MDDisk where
  events : Nat
  level : Int
  layout : Nat
  chunkSize : Nat
  sbSize : Nat
  dataSize : Nat
  raidDisks : Nat
  raidDisk : Option Nat
  setName : Nat
  setUuid : Nat
  deriving DecidableEq, Repr

/-- `disk.size`: the data section size in bytes (`data_size * SECTOR_SIZE`). -/
def mdDiskSize (d : MDDisk) : Nat := d.dataSize * SECTOR_SIZE

/-- The MD 1.x role assignment of `MDPhysicalDisk.__init__`:
`role == MD_DISK_ROLE_JOURNAL` gives data role 0, `role <= MD_DISK_ROLE_MAX`
keeps the role, anything else (faulty 0xFFFE, spare 0xFFFF, ...) gives
`None`. -/
def mdRaidDiskOfRole (role : Nat) : Option Nat :=
  if role = MD_DISK_ROLE_JOURNAL then some 0
  else if role ≤ MD_DISK_ROLE_MAX then some role
  else none

/-- `role = self.sb.dev_roles[self.sb.dev_number]` followed by the role
assignment above. -/
def mdParseRaidDisk (devRoles : List Nat) (devNumber : Nat) : Option Nat :=
  mdRaidDiskOfRole (devRoles.getD devNumber 0)

/-- `sorted(physical_disks, key=operator.attrgetter("events"), reverse=True)[0]`:
Python's sort is stable, so this is the first disk (in list order) whose
`events` value is maximal.  The fold replaces the candidate only on a strictly
larger counter, which selects exactly that disk. -/
def referenceDisk : List MDDisk → Option MDDisk
  | [] => none
  | d :: rest => some (rest.foldl (fun best x => if best.events < x.events then x else best) d)

/-- One `dict` update `m[k] = v`: Python dict semantics, a later binding for
the same key displaces the earlier one (key order is irrelevant here). -/
def assocUpdate {α : Type} (m : List (Nat × α)) (k : Nat) (v : α) : List (Nat × α) :=
  m.filter (fun p => p.1 ≠ k) ++ [(k, v)]

/-- Association-list lookup, mirroring dict access. -/
def assocLookup {α : Type} : List (Nat × α) → Nat → Option α
  | [], _ => none
  | (k, v) :: rest, i => if k = i then some v else assocLookup rest i

/-- The left-to-right accumulation behind the
`{disk.raid_disk: (0, disk) for disk in physical_disks if disk.raid_disk is
not None}` dict comprehension. -/
def mdDiskMapGo : List MDDisk → List (Nat × MDDisk) → List (Nat × MDDisk)
  | [], acc => acc
  | d :: rest, acc =>
    mdDiskMapGo rest
      (match d.raidDisk with
       | some r => assocUpdate acc r d
       | none => acc)

/-- `disk_map = {disk.raid_disk: (0, disk) for disk in physical_disks if
disk.raid_disk is not None}` (the `(0, ...)` start offset is implicit). -/
def mdDiskMap (disks : List MDDisk) : List (Nat × MDDisk) :=
  mdDiskMapGo disks []

/-- Python's `x & ~(c - 1)` on non-negative ints: the bits of `x` outside the
mask `c - 1`, i.e. `x - (x & (c - 1))` (two's complement identity). -/
def pyMaskAlign (x c : Nat) : Nat := x - (x &&& (c - 1))

/-- The constructed `MDVirtualDisk` fields (name, uuid, size, level, layout,
stripe_size = chunk_size, num_disks = raid_disks, disk map). -/
structure MDVD where
  name : Nat
  uuid : Nat
  vsize : Nat
  level : Int
  layout : Nat
  stripeSize : Nat
  numDisks : Nat
  diskMap : List (Nat × MDDisk)
  deriving DecidableEq, Repr

/-- `MDVirtualDisk.__init__`: pick the reference disk by highest `events`,
build the disk map, compute the size by level (LINEAR sums member data sizes;
RAID0 sums member sizes masked down to the chunk size; RAID1/4/5/6/10 use the
recorded `sb.size * SECTOR_SIZE` of the reference disk), and take every other
field from the reference disk. -/
def mdVirtualDisk (disks : List MDDisk) : Except String MDVD :=
  match referenceDisk disks with
  | none => .error "no disks"
  | some ref =>
    let dm := mdDiskMap disks
    let esize : Except String Nat :=
      if ref.level = -1 then
        .ok (dm.foldl (fun acc p => acc + mdDiskSize p.2) 0)
      else if ref.level = 0 then
        .ok (dm.foldl (fun acc p => acc + pyMaskAlign (mdDiskSize p.2) ref.chunkSize) 0)
      else if ref.level = 1 ∨ ref.level = 4 ∨ ref.level = 5 ∨ ref.level = 6 ∨ ref.level = 10 then
        .ok (ref.sbSize * SECTOR_SIZE)
      else
        .error "Invalid MD RAID configuration"
    match esize with
    | .error e => .error e
    | .ok size =>
      .ok ⟨ref.setName, ref.setUuid, size, ref.level, ref.layout, ref.chunkSize, ref.raidDisks, dm⟩

/-! ## DDF configuration-record selection (dissect/volume/ddf/ddf.py) -/

/-- The fields of a `VirtualDiskConfigurationRecord` relevant to reference
selection: the virtual-disk GUID and the `Sequence_Number`. -/
structure VdcrR where
  guid : Nat
  seq : Nat
  deriving DecidableEq, Repr

/-- A DDF member disk as a carrier of its configuration records. -/
structure DdfDiskR where
  vdcrs : List VdcrR
  deriving DecidableEq, Repr

/-- The `vdcr_map` construction of `DDFConfiguration.__init__`:
`vdcr_map.update({vdcr.guid: vdcr for vdcr in pd.virtual_disk_configuration_records})`
over the member disks in order.  Plain dict updates: for records sharing a
GUID the last one processed displaces the earlier ones; the parsed
`sequence_number` is not consulted. -/
def ddfVdcrMap (disks : List DdfDiskR) : List (Nat × VdcrR) :=
  disks.foldl (fun m pd => pd.vdcrs.foldl (fun m v => assocUpdate m v.guid v) m) []

/-! ## Device-mapper persistent B-tree (dissect/volume/dm/btree.py) -/

/-- Little-endian decoding of a byte string, `int.from_bytes(b, "little")`.
The empty string decodes to 0. -/
def fromLE : List Nat → Nat
  | [] => 0
  | b :: rest => b + 256 * fromLE rest

/-- A parsed B-tree node: header flags, `nr_entries`, the key area and the
value area.  `INTERNAL_NODE = 1`, `LEAF_NODE = 2`. -/
structure BNode where
  flags : Nat
  numEntries : Nat
  keys : List Nat
  values : List (List Nat)
  deriving DecidableEq, Repr

/-- `Node.is_internal`. -/
def nodeIsInternal (n : BNode) : Bool := n.flags &&& 1 ≠ 0

/-- `Node.is_leaf`. -/
def nodeIsLeaf (n : BNode) : Bool := n.flags &&& 2 ≠ 0

/-- `Node.key(idx)`.  Indices come from the binary search, which can leave
`result = -1`; Python then slices `_key_area[-8:0]`, an empty byte string,
and `int.from_bytes(b"") = 0`. -/
def nodeKey (n : BNode) (i : Int) : Nat :=
  if i < 0 then 0 else n.keys.getD i.toNat 0

/-- `Node.value(idx)`; as with `nodeKey`, index `-1` yields the empty slice. -/
def nodeValue (n : BNode) (i : Int) : List Nat :=
  if i < 0 then [] else n.values.getD i.toNat []

/-- The binary search of `BTree._lookup` over the occupied key slice:
`low = -1`, `high = num_entries`, exact hit breaks with `mid`; otherwise the
`while/else` returns `high` for `want_high` and `low` otherwise. -/
def bsearchGo (n : BNode) (key : Nat) (wantHigh : Bool) (low high : Int) : Int :=
  if h : 1 < high - low then
    let mid := low + (high - low) / 2
    let cmpKey := nodeKey n mid
    if cmpKey = key then mid
    else if cmpKey < key then bsearchGo n key wantHigh mid high
    else bsearchGo n key wantHigh low mid
  else
    if wantHigh then high else low
  termination_by (high - low).toNat
  decreasing_by
    all_goals omega

/-- The node-descent loop of `BTree._lookup`, with fuel for the unbounded
`while True:`.  The metadata device is modelled as a total map from block
numbers to parsed nodes.  On an internal node the source sets
`block = result` — the binary-search index, not the decoded value — before
iterating; on a leaf it returns `(node.key(result), node.value(result))`. -/
def btreeLookupOne (nodes : Int → BNode) (key : Nat) (wantHigh : Bool) :
    Nat → Int → Option (Nat × List Nat)
  | 0, _ => none
  | fuel + 1, block =>
    let node := nodes block
    let result := bsearchGo node key wantHigh (-1) node.numEntries
    if nodeIsInternal node then btreeLookupOne nodes key wantHigh fuel result
    else if nodeIsLeaf node then some (nodeKey node result, nodeValue node result)
    else none

/-- `BTree.lookup(keys)` over a key list: per level run `_lookup`; a found
key different from the requested key returns `None`; between levels the next
root is the located value decoded as 64-bit little-endian. -/
def btreeLookup (nodes : Int → BNode) (fuel : Nat) (root : Int) :
    List Nat → Option (List Nat)
  | [] => none
  | key :: rest =>
    match btreeLookupOne nodes key false fuel root with
    | none => none
    | some (foundKey, value) =>
      if foundKey ≠ key then none
      else
        match rest with
        | [] => some value
        | _ => btreeLookup nodes fuel (Int.ofNat (fromLE value)) rest

/-! ## Device-mapper thin device (dissect/volume/dm/thin.py) -/

/-- The state a `ThinDevice` read needs: the device id, the block size in
bytes (`data_block_size * SECTOR_SIZE`), the optional size hint, the
two-level data-mapping lookup `(device_id, block) -> value bytes` and the
backing data stream. -/
structure ThinDev where
  deviceId : Nat
  blockSize : Nat
  size : Option Nat
  mapping : Nat → Nat → Option (List Nat)
  dataFh : Nat → Nat

/-- `_unpack_block_time`: data block is the value shifted right by 24 bits. -/
def unpackBlock (blockTime : Nat) : Nat := blockTime >>> 24

/-- The `while length > 0:` loop of `ThinDevice._read`, with fuel.  When the
mapping lookup fails the source runs
`remaining = length; if self.size is None or (remaining := self.size - offset) > 0:
return b"\x00" * min(length, remaining)` — an early `return` that discards
the chunks already collected in `result` — `else: break`.  With no size hint
the walrus is never evaluated, so the zeros span the whole remaining
`length`. -/
def thinReadGo (dev : ThinDev) : Nat → Nat → Nat → Nat → List Nat → List Nat
  | _, _, 0, _, acc => acc
  | 0, _, _, _, acc => acc
  | fuel + 1, offset, length, block, acc =>
    match dev.mapping dev.deviceId block with
    | none =>
      match dev.size with
      | none => List.replicate length 0
      | some s =>
        if 0 < (s : Int) - (offset : Int) then
          List.replicate (min length (s - offset)) 0
        else acc
    | some blockInfo =>
      let dataBlock := unpackBlock (fromLE blockInfo)
      let readSize := min length dev.blockSize
      let chunk := (List.range readSize).map fun i => dev.dataFh (dataBlock * dev.blockSize + i)
      thinReadGo dev fuel (offset + readSize) (length - readSize) (block + 1) (acc ++ chunk)

/-- `ThinDevice._read(offset, length)`: the starting block is
`offset // self.block_size`. -/
def thinRead (dev : ThinDev) (offset length : Nat) : List Nat :=
  thinReadGo dev length offset length (offset / dev.blockSize) []

/-! ## Partition-scheme identification (dissect/volume/disk/disk.py) -/

/-- Scheme tags, standing for the classes GPT, MBR, APM, BSD. -/
def GPT_TAG : Nat := 0

/-- MBR scheme tag. -/
def MBR_TAG : Nat := 1

/-- APM scheme tag. -/
def APM_TAG : Nat := 2

/-- BSD scheme tag. -/
def BSD_TAG : Nat := 3

/-- A parsed partition scheme: which class parsed it and the partitions'
type bytes.  One attempt at constructing a scheme from the stream (with
`fh.seek(start)` re-positioning first) is an `Except String PScheme`. -/
structure PScheme where
  tag : Nat
  partitions : List Nat
  deriving DecidableEq, Repr

/-- The MBR partition-type values of `BSD.TYPES` (the GPT GUID members of
that list cannot collide with the one-byte MBR types modelled here). -/
def bsdTypes : List Nat := [0xA5, 0xA6, 0xA9, 0x6C]

/-- The `for scheme in [GPT, MBR, APM, BSD]` loop of `Disk.__init__`:
each failed attempt's message is appended to `errors`; the first success
stops the loop. -/
def trySchemes : List (Except String PScheme) → List String → List String ⊕ PScheme
  | [], errors => .inl errors
  | .error e :: rest, errors => trySchemes rest (errors ++ [e])
  | .ok scheme :: _, _ => .inr scheme

/-- Concatenate collected error messages as
`"\n- ".join(errors)` does. -/
def joinErrors : List String → String
  | [] => ""
  | [e] => e
  | e :: rest => e ++ "\n- " ++ joinErrors rest

/-- The partition scan of `Disk.__init__`: partitions whose type is in
`BSD.TYPES` are re-parsed as a nested BSD disklabel (replacing
`self.scheme` and contributing the sub-partitions); the nested parse can
itself raise, which propagates uncaught. -/
def scanPartitions (bsdSub : Nat → Except String PScheme) :
    List Nat → PScheme → List Nat → Except String (PScheme × List Nat)
  | [], scheme, acc => .ok (scheme, acc)
  | ptype :: rest, scheme, acc =>
    if ptype ∈ bsdTypes then
      match bsdSub ptype with
      | .error e => .error e
      | .ok sub => scanPartitions bsdSub rest sub (acc ++ sub.partitions)
    else
      scanPartitions bsdSub rest scheme (acc ++ [ptype])

/-- `Disk.__init__`: try GPT, MBR, APM, BSD in that order against the same
starting position (the four arguments are the four parses of the stream from
`start`); fail with the accumulated errors if none succeeds; scan partitions
for nested BSD disklabels; finally fail when an MBR scheme carries a
partition of type 0xEE. -/
def diskInit (gpt mbr apm bsd : Except String PScheme)
    (bsdSub : Nat → Except String PScheme) : Except String PScheme :=
  match trySchemes [gpt, mbr, apm, bsd] [] with
  | .inl errors =>
    .error ("Unable to detect a valid partition scheme:\n- " ++ joinErrors errors)
  | .inr scheme =>
    match scanPartitions bsdSub scheme.partitions scheme [] with
    | .error e => .error e
    | .ok (finalScheme, partitions) =>
      if finalScheme.tag = MBR_TAG ∧ 0xEE ∈ partitions then
        .error "Found GPT type partition, but MBR scheme detected. Maybe 4K sector size."
      else
        .ok ⟨finalScheme.tag, partitions⟩

/-! ## Concrete configurations used to instantiate the theorems -/

/-- Member disk `r` of the small RAID test sets: data byte at position `i` is
`100 * (r + 1) + i`, so every (disk, position) pair is distinguishable. -/
def tDisk (r : Nat) : DiskF := ⟨0, fun i => 100 * (r + 1) + i⟩

/-- A 3-disk RAID5 LEFT_SYMMETRIC set, stripe size 4, all members present. -/
def c1vd : RVirtualDisk :=
  ⟨5, 2, 4, 3, 16, [(0, 0, tDisk 0), (1, 0, tDisk 1), (2, 0, tDisk 2)]⟩

/-- A 3-disk RAID5 set with the unrecognized layout value 7. -/
def c1badvd : RVirtualDisk := ⟨5, 7, 4, 3, 16, []⟩

/-- A 3-disk RAID5 PARITY_N set, stripe size 4, all members present. -/
def c2vd : RVirtualDisk :=
  ⟨5, 5, 4, 3, 16, [(0, 0, tDisk 0), (1, 0, tDisk 1), (2, 0, tDisk 2)]⟩

/-- A 2-disk RAID10 near=2/far=1 set (layout 0x102), stripe size 4, all
members present. -/
def c2vd10 : R10VirtualDisk :=
  ⟨0x102, 4, 2, 8, [(0, 0, tDisk 0), (1, 0, tDisk 1)]⟩

/-- A 4-disk RAID10 near=2/far=1 set (layout 0x102), stripe size 4, with the
role-0 member absent. -/
def c7vd10 : R10VirtualDisk :=
  ⟨0x102, 4, 4, 32, [(1, 0, tDisk 1), (2, 0, tDisk 2), (3, 0, tDisk 3)]⟩

/-- A 3-disk RAID5 LEFT_SYMMETRIC set with the role-2 member absent (still
within the `max_degraded = 1` tolerance at open time). -/
def c9vd : RVirtualDisk :=
  ⟨5, 2, 4, 3, 16, [(0, 0, tDisk 0), (1, 0, tDisk 1)]⟩

/-- The node map of a two-level device-mapper B-tree: block 1 is the internal
root whose single entry (key 5) points at block 2, the leaf holding key 5
with value `[42]`.  Every other block (in particular block 0) parses as a
leaf with the unrelated key 99. -/
def c3Nodes : Int → BNode := fun b =>
  if b = 1 then ⟨1, 1, [5], [[2, 0, 0, 0, 0, 0, 0, 0]]⟩
  else if b = 2 then ⟨2, 1, [5], [[42]]⟩
  else ⟨2, 1, [99], [[7]]⟩

/-- An MD RAID5 configuration of three members, each with 0x800 sectors
(1 MiB) of data and recorded used size `sb.size = 0x800` sectors, chunk size
64 KiB — the shape of the `md_raid5` test fixture. -/
def c5raidDisk (r : Nat) : MDDisk :=
  ⟨1, 5, 2, 0x10000, 0x800, 0x800, 3, some r, 0, 0⟩

/-- The three members of the RAID5 configuration. -/
def c5raid5Disks : List MDDisk := [c5raidDisk 0, c5raidDisk 1, c5raidDisk 2]

/-- A 2-member MD LINEAR configuration, members of 0x800 and 0x1000 data
sectors. -/
def c5linearDisks : List MDDisk :=
  [⟨1, -1, 0, 0x10000, 0, 0x800, 2, some 0, 0, 0⟩,
   ⟨1, -1, 0, 0x10000, 0, 0x1000, 2, some 1, 0, 0⟩]

/-- A 2-member MD RAID0 configuration with chunk 64 KiB and member sizes that
are not chunk multiples (0x8FF data sectors each). -/
def c5raid0Disks : List MDDisk :=
  [⟨1, 0, 0, 0x10000, 0, 0x8FF, 2, some 0, 0, 0⟩,
   ⟨1, 0, 0, 0x10000, 0, 0x8FF, 2, some 1, 0, 0⟩]

/-- A 2-member MD RAID10 configuration with recorded `sb.size = 0x1000`
sectors. -/
def c5raid10Disks : List MDDisk :=
  [⟨1, 10, 0x102, 0x10000, 0x1000, 0x1000, 2, some 0, 0, 0⟩,
   ⟨1, 10, 0x102, 0x10000, 0x1000, 0x1000, 2, some 1, 0, 0⟩]

/-- Two MD member disks of one set that disagree: the first is stale
(events 3), the second fresh (events 9) with different identity fields. -/
def c4mdDisks : List MDDisk :=
  [⟨3, 1, 0, 0x10000, 0x800, 0x800, 2, some 0, 11, 21⟩,
   ⟨9, 1, 0, 0x10000, 0x900, 0x900, 2, some 1, 12, 22⟩]

/-- A DDF virtual-disk configuration record with sequence number 7. -/
def c4vdcrA : VdcrR := ⟨77, 7⟩

/-- A record for the same GUID with the lower sequence number 3. -/
def c4vdcrB : VdcrR := ⟨77, 3⟩

/-- Two DDF member disks carrying the two records; the stale record (seq 3)
is processed last. -/
def c4ddfDisks : List DdfDiskR := [⟨[c4vdcrA]⟩, ⟨[c4vdcrB]⟩]

/-- A thin device opened without a size hint over an empty data mapping. -/
def c6devNoHint : ThinDev :=
  ⟨0, 4096, none, fun _ _ => none, fun _ => 7⟩

/-- A thin device with block size 2 and size hint 8: block 0 is mapped to
data block 1 (block-time value `1 <<< 24`), block 1 and beyond are unmapped.
The data stream holds byte `50 + i` at position `i`. -/
def c6devHint : ThinDev :=
  ⟨0, 2, some 8, fun _ b => if b = 0 then some [0, 0, 0, 1, 0, 0, 0, 0] else none,
   fun i => 50 + i⟩

/-- A journal member (role table entry 0xFFFD, hence data role 0) next to a
real role-0 data member. -/
def c10journal : MDDisk := ⟨1, 5, 2, 0x10000, 0x800, 0x800, 3, mdRaidDiskOfRole 0xFFFD, 5, 5⟩

/-- The genuine role-0 data member it displaces. -/
def c10dataDisk : MDDisk := ⟨1, 5, 2, 0x10000, 0x800, 0x800, 3, some 0, 6, 6⟩

/-- A successfully parsed GPT scheme with three ordinary partitions. -/
def c8gpt : PScheme := ⟨GPT_TAG, [0x83, 0x83, 0x82]⟩

/-- A successfully parsed MBR scheme carrying a protective 0xEE partition. -/
def c8mbrEE : PScheme := ⟨MBR_TAG, [0xEE]⟩

/-- A nested-BSD parser that always fails (no partition in the examples has a
BSD type, so it is never consulted). -/
def c8noBsd : Nat → Except String PScheme := fun _ => .error "no BSD"

/-! ## Theorems -/

/-- C1.  RAID4/5/6 address translation follows the specified algorithm.
With `sn = o / stripe_size` (so `o % stripe_size` is the offset in the
stripe), `data_disks = raid_disks - max_degraded`, `st = sn / data_disks`
and `dd0 = sn % data_disks`, the conjuncts state: the six RAID5 layout-table
rows (in particular LEFT_SYMMETRIC:
`pd = data_disks - st % raid_disks`, `dd = (pd + 1 + dd0) % raid_disks`);
the RAID4 rule `pd = data_disks`; the RAID6 LEFT_SYMMETRIC analogue; an
unrecognized layout at level 5 or 6 and an unrecognized level raise the
invalid-layout/level `RAIDError`; and a read that stays inside one stripe is
served from `disk_map[dd]` at intra-disk offset
`st * stripe_size + offset_in_stripe`. -/
theorem c1_raid456_translation :
    (∀ vd : RVirtualDisk, ∀ o, vd.level = 5 → vd.layout = LEFT_ASYMMETRIC →
      getStripeReadInfo vd o =
        .ok (o / vd.stripeSize / (vd.numDisks - 1), o % vd.stripeSize,
          (if vd.numDisks - 1 - o / vd.stripeSize / (vd.numDisks - 1) % vd.numDisks ≤
              o / vd.stripeSize % (vd.numDisks - 1)
           then o / vd.stripeSize % (vd.numDisks - 1) + 1
           else o / vd.stripeSize % (vd.numDisks - 1)),
          vd.numDisks - 1 - o / vd.stripeSize / (vd.numDisks - 1) % vd.numDisks, none)) ∧
    (∀ vd : RVirtualDisk, ∀ o, vd.level = 5 → vd.layout = RIGHT_ASYMMETRIC →
      getStripeReadInfo vd o =
        .ok (o / vd.stripeSize / (vd.numDisks - 1), o % vd.stripeSize,
          (if o / vd.stripeSize / (vd.numDisks - 1) % vd.numDisks ≤
              o / vd.stripeSize % (vd.numDisks - 1)
           then o / vd.stripeSize % (vd.numDisks - 1) + 1
           else o / vd.stripeSize % (vd.numDisks - 1)),
          o / vd.stripeSize / (vd.numDisks - 1) % vd.numDisks, none)) ∧
    (∀ vd : RVirtualDisk, ∀ o, vd.level = 5 → vd.layout = LEFT_SYMMETRIC →
      getStripeReadInfo vd o =
        .ok (o / vd.stripeSize / (vd.numDisks - 1), o % vd.stripeSize,
          (vd.numDisks - 1 - o / vd.stripeSize / (vd.numDisks - 1) % vd.numDisks + 1 +
            o / vd.stripeSize % (vd.numDisks - 1)) % vd.numDisks,
          vd.numDisks - 1 - o / vd.stripeSize / (vd.numDisks - 1) % vd.numDisks, none)) ∧
    (∀ vd : RVirtualDisk, ∀ o, vd.level = 5 → vd.layout = RIGHT_SYMMETRIC →
      getStripeReadInfo vd o =
        .ok (o / vd.stripeSize / (vd.numDisks - 1), o % vd.stripeSize,
          (o / vd.stripeSize / (vd.numDisks - 1) % vd.numDisks + 1 +
            o / vd.stripeSize % (vd.numDisks - 1)) % vd.numDisks,
          o / vd.stripeSize / (vd.numDisks - 1) % vd.numDisks, none)) ∧
    (∀ vd : RVirtualDisk, ∀ o, vd.level = 5 → vd.layout = PARITY_0 →
      getStripeReadInfo vd o =
        .ok (o / vd.stripeSize / (vd.numDisks - 1), o % vd.stripeSize,
          o / vd.stripeSize % (vd.numDisks - 1) + 1, 0, none)) ∧
    (∀ vd : RVirtualDisk, ∀ o, vd.level = 5 → vd.layout = PARITY_N →
      getStripeReadInfo vd o =
        .ok (o / vd.stripeSize / (vd.numDisks - 1), o % vd.stripeSize,
          o / vd.stripeSize % (vd.numDisks - 1), vd.numDisks - 1, none)) ∧
    (∀ vd : RVirtualDisk, ∀ o, vd.level = 4 →
      getStripeReadInfo vd o =
        .ok (o / vd.stripeSize / (vd.numDisks - 1), o % vd.stripeSize,
          o / vd.stripeSize % (vd.numDisks - 1), vd.numDisks - 1, none)) ∧
    (∀ vd : RVirtualDisk, ∀ o, vd.level = 6 → vd.layout = LEFT_SYMMETRIC →
      getStripeReadInfo vd o =
        .ok (o / vd.stripeSize / (vd.numDisks - 2), o % vd.stripeSize,
          (vd.numDisks - 1 - o / vd.stripeSize / (vd.numDisks - 2) % vd.numDisks + 2 +
            o / vd.stripeSize % (vd.numDisks - 2)) % vd.numDisks,
          vd.numDisks - 1 - o / vd.stripeSize / (vd.numDisks - 2) % vd.numDisks,
          some ((vd.numDisks - 1 - o / vd.stripeSize / (vd.numDisks - 2) % vd.numDisks + 1) %
            vd.numDisks))) ∧
    (∀ vd : RVirtualDisk, ∀ o, vd.level = 5 →
      vd.layout ∉ ([LEFT_ASYMMETRIC, RIGHT_ASYMMETRIC, LEFT_SYMMETRIC, RIGHT_SYMMETRIC,
        PARITY_0, PARITY_N] : List Nat) →
      getStripeReadInfo vd o = .error (.raidError "Invalid RAID algorithm")) ∧
    (∀ vd : RVirtualDisk, ∀ o, vd.level = 6 →
      vd.layout ∉ ([LEFT_ASYMMETRIC, RIGHT_ASYMMETRIC, LEFT_SYMMETRIC, RIGHT_SYMMETRIC,
        PARITY_0, PARITY_N, ROTATING_ZERO_RESTART, ROTATING_N_RESTART, ROTATING_N_CONTINUE,
        LEFT_ASYMMETRIC_6, RIGHT_ASYMMETRIC_6, LEFT_SYMMETRIC_6, RIGHT_SYMMETRIC_6,
        PARITY_0_6] : List Nat) →
      getStripeReadInfo vd o = .error (.raidError "Invalid RAID algorithm")) ∧
    (∀ vd : RVirtualDisk, ∀ o, vd.level ≠ 4 → vd.level ≠ 5 → vd.level ≠ 6 →
      getStripeReadInfo vd o = .error (.raidError "Invalid RAID level")) ∧
    (∀ vd : RVirtualDisk, ∀ o len st ois dd pd qd start dev, 0 < len →
      len ≤ vd.stripeSize - ois →
      getStripeReadInfo vd o = .ok (st, ois, dd, pd, qd) →
      diskLookup vd.disks dd = some (start, dev) →
      raid456Read vd o len =
        .ok (fhRead dev (dev.offset + start + (st * vd.stripeSize + ois)) len)) := by
  refine ⟨?_, ?_, ?_, ?_, ?_, ?_, ?_, ?_, ?_, ?_, ?_, ?_⟩
  · intro vd o hl hlay
    simp [getStripeReadInfo, maxDegraded, hl, hlay, LEFT_ASYMMETRIC, RIGHT_ASYMMETRIC,
      LEFT_SYMMETRIC, RIGHT_SYMMETRIC, PARITY_0, PARITY_N]
  · intro vd o hl hlay
    simp [getStripeReadInfo, maxDegraded, hl, hlay, LEFT_ASYMMETRIC, RIGHT_ASYMMETRIC,
      LEFT_SYMMETRIC, RIGHT_SYMMETRIC, PARITY_0, PARITY_N]
  · intro vd o hl hlay
    simp [getStripeReadInfo, maxDegraded, hl, hlay, LEFT_ASYMMETRIC, RIGHT_ASYMMETRIC,
      LEFT_SYMMETRIC, RIGHT_SYMMETRIC, PARITY_0, PARITY_N]
  · intro vd o hl hlay
    simp [getStripeReadInfo, maxDegraded, hl, hlay, LEFT_ASYMMETRIC, RIGHT_ASYMMETRIC,
      LEFT_SYMMETRIC, RIGHT_SYMMETRIC, PARITY_0, PARITY_N]
  · intro vd o hl hlay
    simp [getStripeReadInfo, maxDegraded, hl, hlay, LEFT_ASYMMETRIC, RIGHT_ASYMMETRIC,
      LEFT_SYMMETRIC, RIGHT_SYMMETRIC, PARITY_0, PARITY_N]
  · intro vd o hl hlay
    simp [getStripeReadInfo, maxDegraded, hl, hlay, LEFT_ASYMMETRIC, RIGHT_ASYMMETRIC,
      LEFT_SYMMETRIC, RIGHT_SYMMETRIC, PARITY_0, PARITY_N]
  · intro vd o hl
    simp [getStripeReadInfo, maxDegraded, hl]
  · intro vd o hl hlay
    simp [getStripeReadInfo, maxDegraded, hl, hlay, LEFT_ASYMMETRIC, RIGHT_ASYMMETRIC,
      LEFT_SYMMETRIC, RIGHT_SYMMETRIC, PARITY_0, PARITY_N]
  · intro vd o hl hlay
    simp only [List.mem_cons, List.not_mem_nil, or_false, not_or] at hlay
    obtain ⟨h0, h1, h2, h3, h4, h5⟩ := hlay
    simp [getStripeReadInfo, maxDegraded, hl, h0, h1, h2, h3, h4, h5]
  · intro vd o hl hlay
    simp only [List.mem_cons, List.not_mem_nil, or_false, not_or] at hlay
    obtain ⟨h0, h1, h2, h3, h4, h5, h8, h9, h10, h16, h17, h18, h19, h20⟩ := hlay
    simp [getStripeReadInfo, maxDegraded, hl, h0, h1, h2, h3, h4, h5, h8, h9, h10, h16,
      h17, h18, h19, h20]
  · intro vd o h4 h5 h6
    simp [getStripeReadInfo, maxDegraded, h4, h5, h6]
  · intro vd o len st ois dd pd qd start dev hpos hle hinfo hdisk
    obtain ⟨k, rfl⟩ : ∃ k, len = k + 1 := ⟨len - 1, by omega⟩
    have hmin : min (k + 1) (vd.stripeSize - ois) = k + 1 := Nat.min_eq_left hle
    simp only [raid456Read, raid456ReadGo, hinfo, hdisk, hmin, Nat.sub_self,
      List.append_nil]

/-- Witness for C1 on the 3-disk LEFT_SYMMETRIC set: offset 7 translates to
stripe 0, offset-in-stripe 3, data disk 1, parity disk 2; the one-byte read
at offset 7 is served from member 1 at intra-disk offset 3 (byte 203); and
the unrecognized layout 7 raises the invalid-algorithm error. -/
theorem c1_raid456_translation_witness :
    getStripeReadInfo c1vd 7 = .ok (0, 3, 1, 2, none) ∧
    raid456Read c1vd 7 1 = .ok [203] ∧
    getStripeReadInfo c1badvd 0 = .error (.raidError "Invalid RAID algorithm") := by
  refine ⟨?_, ?_, ?_⟩
  · exact c1_raid456_translation.2.2.1 c1vd 7 rfl rfl
  · exact c1_raid456_translation.2.2.2.2.2.2.2.2.2.2.2 c1vd 7 1 0 3 1 2 none 0 (tDisk 1)
      (by decide) (by decide) rfl rfl
  · exact c1_raid456_translation.2.2.2.2.2.2.2.2.1 c1badvd 0 rfl (by decide)

/-- C2.  The claim fails on the code: `RAID456Stream._read` and
`RAID10Stream._read` pass the unclamped remaining `length` to `fh.read`
instead of the computed `read_length = min(length, stripe_size -
offset_in_stripe)`.  On the 3-disk RAID5 set with stripe size 4, reading 4
bytes at offset 2 crosses one stripe boundary: the first iteration fetches 4
bytes from the role-0 member (two of them beyond the stripe), the second
fetches 2 more, so 6 bytes come back instead of the requested 4 — the
correct result is `[102, 103, 200, 201]`.  The RAID10 read at the same
offsets misbehaves identically, while `RAID0Stream._read` (which does pass
`read_length`) is unaffected. -/
theorem c2_read_length_bug :
    raid456Read c2vd 2 4 = .ok [102, 103, 104, 105, 200, 201] ∧
    ([102, 103, 104, 105, 200, 201] : List Nat).length = 6 ∧
    raid10Read c2vd10 2 4 = .ok [102, 103, 104, 105, 104, 105] := by
  refine ⟨?_, rfl, ?_⟩ <;> rfl

/-- C3.  The claim fails on the code: on an internal node `BTree._lookup`
sets `block = result` — the binary-search index — instead of decoding the
located entry's value as a 64-bit little-endian block number.  In the
two-level tree `c3Nodes`, the root (block 1) is internal, its located entry
for key 5 has the value `[2,0,0,0,0,0,0,0]` which decodes to leaf block 2,
and that leaf does hold key 5 with value `[42]`; yet the lookup descends to
block 0 (the index) and returns `none`. -/
theorem c3_internal_descend_bug :
    btreeLookup c3Nodes 10 1 [5] = none ∧
    nodeIsInternal (c3Nodes 1) = true ∧
    fromLE (nodeValue (c3Nodes 1) 0) = 2 ∧
    btreeLookup c3Nodes 10 2 [5] = some [42] := by
  refine ⟨?_, rfl, rfl, ?_⟩ <;>
    simp [btreeLookup, btreeLookupOne, bsearchGo, c3Nodes, nodeIsInternal, nodeIsLeaf,
      nodeKey, nodeValue]

/-- C6.  The claim fails on the code: in `ThinDevice._read` the unmapped-block
branch runs `if self.size is None or (remaining := self.size - offset) > 0:
return b"\x00" * min(length, remaining)`.  With no size hint the condition
short-circuits, so instead of terminating with a short read the device
returns a full run of zeros (first conjunct); with a size hint the early
`return` discards the data of blocks already fetched in the same call — on
`c6devHint`, block 0 is mapped to bytes `[52, 53]` but a 4-byte read returns
only the 2 zero bytes of the unmapped block 1 (second and third conjuncts).
Only the claim's final special case — a read past every mapped block but
inside the hint returns all zeros — holds (fourth conjunct). -/
theorem c6_thin_unmapped_bug :
    thinRead c6devNoHint 0 10 = List.replicate 10 0 ∧
    thinRead c6devHint 0 4 = [0, 0] ∧
    (c6devHint.mapping 0 0).map (fun v => (List.range 2).map fun i =>
      c6devHint.dataFh (unpackBlock (fromLE v) * c6devHint.blockSize + i)) = some [52, 53] ∧
    thinRead c6devHint 4 4 = [0, 0, 0, 0] := by
  exact ⟨rfl, rfl, rfl, rfl⟩

/-- C7.  The claim fails on the code: `RAID10Stream._read` serves every
stripe with the single dictionary lookup `self.devices[dev]` and never
attempts another copy.  On the 4-disk near=2/far=1 set with the role-0
member absent, a read of block 0 raises `KeyError(0)` even though the mirror
copy of that stripe lives on the present role-1 member (the repository's own
`test_md_raid10_fallback` expects such reads to succeed or to raise
RAIDError "Unable to find device", an error message that exists nowhere in
the stream code). -/
theorem c7_raid10_no_fallback :
    raid10Read c7vd10 0 4 = .error (.keyError 0) ∧
    diskLookup c7vd10.devices 1 = some (0, tDisk 1) := by
  exact ⟨rfl, rfl⟩

/-- C4.  The MD half of the claim holds on the code: with two members of one
set disagreeing, the constructed virtual disk takes name, uuid, size, level,
layout and stripe size from the member with the larger `events` counter (the
second disk, events 9).  The DDF half fails: `DDFConfiguration.__init__`
builds `vdcr_map` with plain dict updates over the member disks, so for two
configuration records with the same GUID the one processed last wins even
though its `sequence_number` (3) is lower than the other's (7); the parsed
`sequence_number` is never consulted. -/
theorem c4_reference_selection :
    referenceDisk c4mdDisks = some ⟨9, 1, 0, 0x10000, 0x900, 0x900, 2, some 1, 12, 22⟩ ∧
    (mdVirtualDisk c4mdDisks).map
      (fun vd => (vd.name, vd.uuid, vd.vsize, vd.level, vd.layout, vd.stripeSize)) =
      .ok (12, 22, 0x900 * 512, 1, 0, 0x10000) ∧
    ddfVdcrMap c4ddfDisks = [(77, c4vdcrB)] ∧
    c4vdcrB.seq < c4vdcrA.seq := by
  refine ⟨rfl, ?_, rfl, by decide⟩
  rfl

/-- C5.  The claim fails on the code for the parity levels: for RAID1, RAID4,
RAID5, RAID6 and RAID10 alike, `MDVirtualDisk.__init__` sets
`size = reference_disk.sb.size * SECTOR_SIZE`, the recorded per-component
used size.  On a 3-member RAID5 whose members each carry 0x800 sectors
(1 MiB) of data — the shape of the repository's `md_raid5` fixture, whose
test asserts `vd.size == 0x200000` — the code yields 0x100000 instead of the
claimed `(n-1) * member_size = 0x200000` (first two conjuncts).  The LINEAR,
RAID0 and RAID10 formulas of the claim do hold: sum of member data sizes,
sum of member sizes masked down to the chunk size, and the recorded size
field (remaining conjuncts). -/
theorem c5_size_formula :
    (mdVirtualDisk c5raid5Disks).map MDVD.vsize = .ok 0x100000 ∧
    (3 - 1) * 0x100000 = 0x200000 ∧
    (mdVirtualDisk c5linearDisks).map MDVD.vsize = .ok (0x800 * 512 + 0x1000 * 512) ∧
    (mdVirtualDisk c5raid0Disks).map MDVD.vsize = .ok (0x110000 + 0x110000) ∧
    0x110000 = 0x8FF * 512 / 0x10000 * 0x10000 ∧
    (mdVirtualDisk c5raid10Disks).map MDVD.vsize = .ok (0x1000 * 512) := by
  refine ⟨rfl, rfl, rfl, ?_, by decide, rfl⟩
  rfl

/-- When no partition has a BSD type, the partition scan leaves the scheme
unchanged and appends the partitions to the accumulator. -/
theorem scanPartitions_no_bsd (bsdSub : Nat → Except String PScheme) :
    ∀ (parts : List Nat) (scheme : PScheme) (acc : List Nat),
      (∀ t ∈ parts, t ∉ bsdTypes) →
      scanPartitions bsdSub parts scheme acc = .ok (scheme, acc ++ parts) := by
  intro parts
  induction parts with
  | nil => intro scheme acc _; simp [scanPartitions]
  | cons t rest ih =>
    intro scheme acc h
    have ht : t ∉ bsdTypes := h t (List.mem_cons_self t rest)
    rw [scanPartitions, if_neg ht, ih scheme (acc ++ [t]) fun x hx => h x (List.mem_cons_of_mem t hx)]
    simp

/-- C8.  Scheme identification tries GPT, MBR, APM, BSD in that order against
the same parses of the stream from its starting position; the first success
wins (conjuncts 1-4 for each position, conjunct 6 end-to-end); when all four
fail, construction fails with the four collected messages joined in order
(conjunct 5); and when the MBR scheme wins while a partition of type 0xEE is
present — as happens for a 4K-sector GPT disk opened with 512-byte sectors —
construction fails with the "Maybe 4K sector size." error (conjunct 7). -/
theorem c8_scheme_identification :
    (∀ (s : PScheme) (m a b : Except String PScheme),
      trySchemes [.ok s, m, a, b] [] = .inr s) ∧
    (∀ (e1 : String) (s : PScheme) (a b : Except String PScheme),
      trySchemes [.error e1, .ok s, a, b] [] = .inr s) ∧
    (∀ (e1 e2 : String) (s : PScheme) (b : Except String PScheme),
      trySchemes [.error e1, .error e2, .ok s, b] [] = .inr s) ∧
    (∀ (e1 e2 e3 : String) (s : PScheme),
      trySchemes [.error e1, .error e2, .error e3, .ok s] [] = .inr s) ∧
    (∀ (e1 e2 e3 e4 : String) (sub : Nat → Except String PScheme),
      diskInit (.error e1) (.error e2) (.error e3) (.error e4) sub =
        .error ("Unable to detect a valid partition scheme:\n- " ++
          joinErrors [e1, e2, e3, e4])) ∧
    (∀ (s : PScheme) (m a b : Except String PScheme) (sub : Nat → Except String PScheme),
      (∀ t ∈ s.partitions, t ∉ bsdTypes) →
      ¬(s.tag = MBR_TAG ∧ 0xEE ∈ s.partitions) →
      diskInit (.ok s) m a b sub = .ok ⟨s.tag, s.partitions⟩) ∧
    (∀ (e1 : String) (parts : List Nat) (a b : Except String PScheme)
        (sub : Nat → Except String PScheme),
      (∀ t ∈ parts, t ∉ bsdTypes) →
      0xEE ∈ parts →
      diskInit (.error e1) (.ok ⟨MBR_TAG, parts⟩) a b sub =
        .error "Found GPT type partition, but MBR scheme detected. Maybe 4K sector size.") := by
  refine ⟨fun s m a b => rfl, fun e1 s a b => rfl, fun e1 e2 s b => rfl,
    fun e1 e2 e3 s => rfl, fun e1 e2 e3 e4 sub => rfl, ?_, ?_⟩
  · intro s m a b sub hbsd hmbr
    have hscan := scanPartitions_no_bsd sub s.partitions s [] hbsd
    simp only [diskInit, trySchemes, hscan, List.nil_append]
    simp [hmbr]
  · intro e1 parts a b sub hbsd hee
    have hscan := scanPartitions_no_bsd sub parts ⟨MBR_TAG, parts⟩ [] hbsd
    simp only [diskInit, trySchemes, hscan, List.nil_append]
    simp [hee]

/-- Witness for C8: the GPT parse wins over failing alternatives and yields
its three partitions; with GPT failing and MBR carrying the protective 0xEE
entry the 4K-sector error is raised; with all four schemes failing the
collected messages surface. -/
theorem c8_scheme_identification_witness :
    diskInit (.ok c8gpt) (.error "x") (.error "y") (.error "z") c8noBsd =
      .ok ⟨GPT_TAG, [0x83, 0x83, 0x82]⟩ ∧
    diskInit (.error "e1") (.ok c8mbrEE) (.error "y") (.error "z") c8noBsd =
      .error "Found GPT type partition, but MBR scheme detected. Maybe 4K sector size." ∧
    diskInit (.error "a") (.error "b") (.error "c") (.error "d") c8noBsd =
      .error ("Unable to detect a valid partition scheme:\n- " ++
        joinErrors ["a", "b", "c", "d"]) := by
  refine ⟨?_, ?_, ?_⟩
  · exact c8_scheme_identification.2.2.2.2.2.1 c8gpt (.error "x") (.error "y") (.error "z")
      c8noBsd (by decide) (by decide)
  · exact c8_scheme_identification.2.2.2.2.2.2 "e1" [0xEE] (.error "y") (.error "z")
      c8noBsd (by decide) (by decide)
  · exact c8_scheme_identification.2.2.2.2.1 "a" "b" "c" "d" c8noBsd

/-- C9.  `RAID456Stream.__init__` accepts any configuration with at least
`num_disks - max_degraded` members (`max_degraded` is 2 for RAID6, else 1),
but `_read` serves each stripe with the plain dictionary lookup
`self.disks[dd_idx]`: when the translated data-disk index falls on a missing
member the read fails with a `KeyError` for that index — an error distinct
from the `RAIDError` raised for missing disks at open time. -/
theorem c9_degraded_read_keyerror :
    (∀ vd : RVirtualDisk, vd.level = 6 → maxDegraded vd = 2) ∧
    (∀ vd : RVirtualDisk, vd.level ≠ 6 → maxDegraded vd = 1) ∧
    (∀ vd : RVirtualDisk, vd.numDisks - maxDegraded vd ≤ vd.disks.length →
      raid456Init vd = .ok ()) ∧
    (∀ vd : RVirtualDisk, ∀ o len st ois dd pd qd, 0 < len →
      getStripeReadInfo vd o = .ok (st, ois, dd, pd, qd) →
      diskLookup vd.disks dd = none →
      raid456Read vd o len = .error (.keyError dd)) ∧
    (∀ (dd : Nat) (msg : String), (RErr.keyError dd : RErr) ≠ .raidError msg) := by
  refine ⟨?_, ?_, ?_, ?_, ?_⟩
  · intro vd h; simp [maxDegraded, h]
  · intro vd h; simp [maxDegraded, h]
  · intro vd h
    rw [raid456Init, if_neg (by omega)]
  · intro vd o len st ois dd pd qd hpos hinfo hlookup
    obtain ⟨k, rfl⟩ : ∃ k, len = k + 1 := ⟨len - 1, by omega⟩
    simp only [raid456Read, raid456ReadGo, hinfo, hlookup]
  · intro dd msg h
    cases h

/-- Witness for C9 on the degraded 3-disk RAID5 set (role 2 absent): the set
opens, yet the read at offset 8 — whose translated data-disk index is the
missing role 2 — fails with `KeyError(2)`. -/
theorem c9_degraded_read_keyerror_witness :
    raid456Init c9vd = .ok () ∧
    raid456Read c9vd 8 1 = .error (.keyError 2) := by
  refine ⟨?_, ?_⟩
  · exact c9_degraded_read_keyerror.2.2.1 c9vd (by decide)
  · exact c9_degraded_read_keyerror.2.2.2.1 c9vd 8 1 1 0 2 1 none (by decide) rfl rfl

/-- Every binding of the MD disk map comes from a member whose `raid_disk`
is exactly the binding's key. -/
theorem mdDiskMapGo_mem :
    ∀ (ds : List MDDisk) (acc : List (Nat × MDDisk)) (p : Nat × MDDisk),
      p ∈ mdDiskMapGo ds acc → p ∈ acc ∨ (p.2 ∈ ds ∧ p.2.raidDisk = some p.1) := by
  intro ds
  induction ds with
  | nil => intro acc p hp; exact Or.inl hp
  | cons d rest ih =>
    intro acc p hp
    rw [mdDiskMapGo] at hp
    rcases hd : d.raidDisk with _ | r
    · rw [hd] at hp
      rcases ih _ p hp with h | h
      · exact Or.inl h
      · exact Or.inr ⟨List.mem_cons_of_mem d h.1, h.2⟩
    · rw [hd] at hp
      rcases ih _ p hp with h | h
      · simp only [assocUpdate] at h
        rcases List.mem_append.mp h with h | h
        · exact Or.inl (List.mem_of_mem_filter h)
        · rcases List.mem_singleton.mp h with rfl
          exact Or.inr ⟨List.mem_cons_self d rest, hd⟩
      · exact Or.inr ⟨List.mem_cons_of_mem d h.1, h.2⟩

/-- If some member has the data role `k` (or the accumulator already has key
`k`), the accumulated MD disk map has a binding with key `k`. -/
theorem mdDiskMapGo_key :
    ∀ (ds : List MDDisk) (acc : List (Nat × MDDisk)) (k : Nat),
      ((∃ q ∈ acc, q.1 = k) ∨ (∃ d ∈ ds, d.raidDisk = some k)) →
      ∃ q ∈ mdDiskMapGo ds acc, q.1 = k := by
  intro ds
  induction ds with
  | nil =>
    intro acc k h
    rcases h with h | h
    · exact h
    · rcases h with ⟨d, hd, _⟩; cases hd
  | cons d rest ih =>
    intro acc k h
    rw [mdDiskMapGo]
    rcases hd : d.raidDisk with _ | r
    · refine ih acc k ?_
      rcases h with h | ⟨x, hx, hxr⟩
      · exact Or.inl h
      · rcases List.mem_cons.mp hx with rfl | hx
        · rw [hd] at hxr; cases hxr
        · exact Or.inr ⟨x, hx, hxr⟩
    · refine ih (assocUpdate acc r d) k ?_
      by_cases hrk : r = k
      · subst hrk
        exact Or.inl ⟨(r, d), List.mem_append_right _ (List.mem_singleton.mpr rfl), rfl⟩
      · rcases h with ⟨q, hq, hqk⟩ | ⟨x, hx, hxr⟩
        · refine Or.inl ⟨q, List.mem_append_left _ ?_, hqk⟩
          exact List.mem_filter.mpr ⟨hq, by simp [hqk]; omega⟩
        · rcases List.mem_cons.mp hx with rfl | hx
          · rw [hd] at hxr
            cases hxr
            exact absurd rfl hrk
          · exact Or.inr ⟨x, hx, hxr⟩

/-- C10.  MD 1.x role handling: a role-table entry equal to the journal role
0xFFFD is assigned data role 0, so the journal member occupies (and, when it
is processed later, displaces the data member at) index 0 of the disk map;
every role value above `MD_DISK_ROLE_MAX` other than the journal role — in
particular faulty 0xFFFE and spare 0xFFFF — yields `raid_disk = None`, and
such members never appear in the disk map (every map binding comes from a
member whose `raid_disk` equals the binding's key). -/
theorem c10_role_assignment :
    mdRaidDiskOfRole MD_DISK_ROLE_JOURNAL = some 0 ∧
    (∀ r : Nat, MD_DISK_ROLE_MAX < r → r ≠ MD_DISK_ROLE_JOURNAL →
      mdRaidDiskOfRole r = none) ∧
    (∀ (ds : List MDDisk) (p : Nat × MDDisk), p ∈ mdDiskMap ds →
      p.2 ∈ ds ∧ p.2.raidDisk = some p.1) ∧
    (∀ (ds : List MDDisk) (d : MDDisk), d ∈ ds → d.raidDisk = some 0 →
      ∃ x : MDDisk, (0, x) ∈ mdDiskMap ds ∧ x ∈ ds ∧ x.raidDisk = some 0) ∧
    mdDiskMap [c10dataDisk, c10journal] = [(0, c10journal)] := by
  refine ⟨rfl, ?_, ?_, ?_, rfl⟩
  · intro r hgt hne
    rw [mdRaidDiskOfRole, if_neg hne, if_neg (by omega)]
  · intro ds p hp
    rcases mdDiskMapGo_mem ds [] p hp with h | h
    · cases h
    · exact h
  · intro ds d hd hrole
    obtain ⟨q, hq, hqk⟩ := mdDiskMapGo_key ds [] 0 (Or.inr ⟨d, hd, hrole⟩)
    obtain ⟨hmem, hrd⟩ := (by
      rcases mdDiskMapGo_mem ds [] q hq with h | h
      · cases h
      · exact h : q.2 ∈ ds ∧ q.2.raidDisk = some q.1)
    refine ⟨q.2, ?_, hmem, by rw [hrd, hqk]⟩
    have : q = (0, q.2) := by
      cases q
      simp_all
    rw [← this]
    exact hq

/-- Witness for C10: the faulty (0xFFFE) and spare (0xFFFF) roles get no
raid disk, while the journal member ends up holding index 0 of the disk map
of `[c10dataDisk, c10journal]`, displacing the genuine role-0 member. -/
theorem c10_role_assignment_witness :
    mdRaidDiskOfRole 0xFFFE = none ∧
    mdRaidDiskOfRole 0xFFFF = none ∧
    (∃ x : MDDisk, (0, x) ∈ mdDiskMap [c10dataDisk, c10journal] ∧
      x ∈ [c10dataDisk, c10journal] ∧ x.raidDisk = some 0) := by
  refine ⟨?_, ?_, ?_⟩
  · exact c10_role_assignment.2.1 0xFFFE (by decide) (by decide)
  · exact c10_role_assignment.2.1 0xFFFF (by decide) (by decide)
  · exact c10_role_assignment.2.2.2.1 [c10dataDisk, c10journal] c10journal
      (by simp) rfl

end DissectVolume
